import Mathlib

/-!
Shallow embedding of the OSR USB-FX2 Linux driver
(src/DriverSourceCode/my_usb_driver.c) and verification of the
specification claims about it.

Machine integers are modelled as Nat / Int with explicit reduction
modulo 2^64 where the C code uses size_t / unsigned long arithmetic.
Hardware interaction (USB control / bulk transfers) is modelled by
passing the outcome of each transfer in explicitly as a parameter;
the embedded function records which transfers it issued.
-/

namespace OsrFx2

/-- Modulus of C size_t / unsigned long arithmetic (64-bit kernel). -/
def size_t_mod : Nat := 2 ^ 64

/-! ## Attribute translator: bit remap tables and formatting

These embed `set_bargraph` (lines 660-679), `get_bargraph` (620-649),
`set_7segment` (731-758) and `get_7segment` (694-728).
-/

/-- The LED bit remap performed in the body of `set_bargraph`:
`fx2dev->leds` starts at 0 and accumulates the eight `|=` statements
at lines 671-678 of my_usb_driver.c. -/
def set_bargraph_remap (value : Nat) : Nat :=
  let leds := 0
  let leds := leds ||| ((value >>> 3) &&& 0x01)
  let leds := leds ||| ((value >>> 3) &&& 0x02)
  let leds := leds ||| ((value >>> 3) &&& 0x04)
  let leds := leds ||| ((value >>> 3) &&& 0x08)
  let leds := leds ||| ((value >>> 3) &&& 0x10)
  let leds := leds ||| ((value <<< 5) &&& 0x20)
  let leds := leds ||| ((value <<< 5) &&& 0x40)
  let leds := leds ||| ((value <<< 5) &&& 0x80)
  leds

/-- The 7-segment bit remap performed in the body of `set_7segment`:
the eight `|=` statements at lines 750-757 of my_usb_driver.c. -/
def set_7segment_remap (value : Nat) : Nat :=
  let segments := 0
  let segments := segments ||| (value &&& 0x01)
  let segments := segments ||| (value &&& 0x02)
  let segments := segments ||| (value &&& 0x04)
  let segments := segments ||| ((value >>> 4) &&& 0x08)
  let segments := segments ||| (value &&& 0x10)
  let segments := segments ||| ((value >>> 1) &&& 0x20)
  let segments := segments ||| ((value <<< 1) &&& 0x40)
  let segments := segments ||| ((value <<< 4) &&& 0x80)
  segments

/-- One character of the sysfs read format: the C idiom
`(x & mask) ? "1" : "0"`. -/
def bitChar (x mask : Nat) : Char :=
  if x &&& mask ≠ 0 then '1' else '0'

/-- The 8-character string built by the `sprintf` at lines 638-646 of
`get_bargraph` (mask order 0x10, 0x08, 0x04, 0x02, 0x01, 0x80, 0x40, 0x20). -/
def get_bargraph_format (leds : Nat) : String :=
  String.mk [ bitChar leds 0x10, bitChar leds 0x08, bitChar leds 0x04,
              bitChar leds 0x02, bitChar leds 0x01, bitChar leds 0x80,
              bitChar leds 0x40, bitChar leds 0x20]

/-- The 8-character string built by the `sprintf` at lines 717-725 of
`get_7segment` (mask order 0x08, 0x20, 0x40, 0x10, 0x80, 0x04, 0x02, 0x01). -/
def get_7segment_format (segments : Nat) : String :=
  String.mk [ bitChar segments 0x08, bitChar segments 0x20, bitChar segments 0x40,
              bitChar segments 0x10, bitChar segments 0x80, bitChar segments 0x04,
              bitChar segments 0x02, bitChar segments 0x01]

/-- Read an 8-character '0'/'1' string back as a number, first
character most significant (how a user interprets the sysfs output). -/
def bitsToNat (cs : List Char) : Nat :=
  cs.foldl (fun a c => 2 * a + (if c = '1' then 1 else 0)) 0

/-! ## Attribute store path: decimal parsing and range check -/

/-- Embedding of the kernel's `simple_strtoul(buf, &end, 10)`: the value
of the leading run of decimal digits, in unsigned long arithmetic.
An empty digit run yields 0 (and corresponds to `buf == end`). -/
def simple_strtoul10 (s : List Char) : Nat :=
  ((s.takeWhile Char.isDigit).foldl (fun a c => 10 * a + (c.toNat - 48)) 0) % size_t_mod

/-- The physical LED byte that `set_bargraph` (lines 660-679) stores in
`fx2dev->leds` and sends to the device for input string `buf`:
`value = simple_strtoul(buf, &end, 10) & 0xFF`, `value = 0` when no
digits were consumed, then the (dead, see C2) `value > 255` clamp,
else the bit remap. -/
def set_bargraph_value (buf : List Char) : Nat :=
  let value := simple_strtoul10 buf &&& 0xFF
  let value := if buf.takeWhile Char.isDigit = [] then 0 else value
  if value > 255 then 0 else set_bargraph_remap value

/-- The physical 7-segment byte that `set_7segment` (lines 731-758)
stores in `fx2dev->segments` and sends to the device for input `buf`. -/
def set_7segment_value (buf : List Char) : Nat :=
  let value := simple_strtoul10 buf &&& 0xFF
  let value := if buf.takeWhile Char.isDigit = [] then 0 else value
  if value > 255 then 0 else set_7segment_remap value

/-! ## Attribute show path: suspend check plus vendor IN control transfer

The outcome of the `usb_control_msg` call is a parameter: its return
status (number of bytes on success, negative errno on failure) and the
byte the transfer deposits in the 1-byte buffer when it succeeds.
-/

/-- Outcome of a vendor IN control transfer (`usb_control_msg` with
USB_DIR_IN): the returned status and the byte it stored. -/
structure CtrlIn where
  status : Int
  byte : Nat
deriving DecidableEq

/-- Result of a sysfs show function: either the string placed into the
buffer by `sprintf` (returned with its length as a positive count), or a
negative error code. -/
inductive ShowResult
  | out (s : String)
  | err (e : Int)
deriving DecidableEq

/-- Whether a show result is the error case. -/
def ShowResult.isErr : ShowResult → Bool
  | .out _ => false
  | .err _ => true

/-- Embedding of `get_bargraph` (lines 620-649). Takes the cached
`fx2dev->leds` byte, the `fx2dev->suspended` flag and the control
transfer outcome; returns the show result, the final `leds` cache, and
whether a control transfer was issued. Note: the function overwrites
`retval` with the `sprintf` result, so a failed control transfer is NOT
propagated (the freshly zeroed cache is formatted instead). -/
def get_bargraph (leds0 : Nat) (suspended : Bool) (ctrl : CtrlIn) :
    ShowResult × Nat × Bool :=
  if suspended then (.out "S ", leds0, false)
  else
    let leds := 0
    let leds := if 0 ≤ ctrl.status then ctrl.byte else leds
    (.out (get_bargraph_format leds), leds, true)

/-- Embedding of `get_7segment` (lines 694-728). Same shape as
`get_bargraph`, except that this function checks `retval < 0` after the
control transfer and returns the error. -/
def get_7segment (segments0 : Nat) (suspended : Bool) (ctrl : CtrlIn) :
    ShowResult × Nat × Bool :=
  if suspended then (.out "S ", segments0, false)
  else
    let segments := 0
    let segments := if 0 ≤ ctrl.status then ctrl.byte else segments
    if ctrl.status < 0 then (.err ctrl.status, segments, true)
    else (.out (get_7segment_format segments), segments, true)

/-! ## Power state -/

/-- The slice of the device context that suspend/resume touch. -/
structure PmState where
  suspended : Bool
deriving DecidableEq

/-- Embedding of `osrfx2_suspend` (lines 342-356): sets
`fx2dev->suspended = 1` and kills the interrupt urb. -/
def osrfx2_suspend (_s : PmState) : PmState := { suspended := true }

/-- Embedding of `osrfx2_resume` (lines 359-388): sets
`fx2dev->suspended = 0` and resubmits the interrupt urb (a resubmission
failure is logged but the function still returns 0). -/
def osrfx2_resume (_s : PmState) : PmState := { suspended := false }

/-! ## Access arbiter: open / release on the bulk pipe permits

`bulk_write_available` and `bulk_read_available` are the two atomic
counters of the device context (initialised to 1 in `osrfx2_probe`).
`atomic_dec_and_test` decrements and reports whether the result is 0.
-/

/-- The three values of `file->f_flags & O_ACCMODE`. -/
inductive Mode
  | readOnly
  | writeOnly
  | readWrite
deriving DecidableEq

/-- The two atomic pipe-arbitration counters of `struct osrfx2`. -/
structure Permits where
  bulk_write_available : Int
  bulk_read_available : Int
deriving DecidableEq

/-- Result of `osrfx2_open` as far as arbitration goes: success, or
`-EBUSY`. -/
inductive OpenResult
  | ok
  | busy
deriving DecidableEq

/-- Whether the open mode takes the write permit:
`(flags == O_WRONLY) || (flags == O_RDWR)` (line 406). -/
def wantsWrite : Mode → Bool
  | .writeOnly => true
  | .readWrite => true
  | .readOnly => false

/-- Whether the open mode takes the read permit:
`(flags == O_RDONLY) || (flags == O_RDWR)` (line 420). -/
def wantsRead : Mode → Bool
  | .readOnly => true
  | .readWrite => true
  | .writeOnly => false

/-- Embedding of the arbitration part of `osrfx2_open` (lines 404-434).
For the write permit: `atomic_dec_and_test`, and on failure
`atomic_inc` restores it and `-EBUSY` is returned. For the read permit
the same, except that on failure an `O_RDWR` open also restores the
write permit it had already taken (lines 423-424). -/
def osrfx2_open (m : Mode) (s : Permits) : OpenResult × Permits :=
  if wantsWrite m then
    let w1 := s.bulk_write_available - 1
    if w1 ≠ 0 then
      (.busy, { s with bulk_write_available := w1 + 1 })
    else
      let s1 : Permits := { s with bulk_write_available := w1 }
      if wantsRead m then
        let r1 := s1.bulk_read_available - 1
        if r1 ≠ 0 then
          (.busy, { bulk_read_available := r1 + 1,
                    bulk_write_available := s1.bulk_write_available + 1 })
        else
          (.ok, { s1 with bulk_read_available := r1 })
      else
        (.ok, s1)
  else if wantsRead m then
    let r1 := s.bulk_read_available - 1
    if r1 ≠ 0 then
      (.busy, { s with bulk_read_available := r1 + 1 })
    else
      (.ok, { s with bulk_read_available := r1 })
  else
    (.ok, s)

/-- Embedding of the permit-release part of `osrfx2_release`
(lines 459-465): `atomic_inc` on each permit the mode implies. -/
def osrfx2_release (m : Mode) (s : Permits) : Permits :=
  let s := if wantsWrite m then
    { s with bulk_write_available := s.bulk_write_available + 1 } else s
  if wantsRead m then
    { s with bulk_read_available := s.bulk_read_available + 1 } else s

/-! ### A small session system over the arbiter

To state "at most one session holds the write permit at a time" we run
the arbiter under an arbitrary sequence of open/close events, tracking
how many sessions of each mode are currently open. A close event for a
mode with no open session is a no-op (the kernel only calls release on
files that were successfully opened).
-/

/-- An arbitration event: an open attempt or a close of an open
session, each with its access mode. -/
inductive ArbOp
  | opn (m : Mode)
  | cls (m : Mode)
deriving DecidableEq

/-- System state: the two permits plus the number of currently open
sessions of each mode. -/
structure Sys where
  permits : Permits
  nRO : Nat
  nWO : Nat
  nRW : Nat
deriving DecidableEq

/-- State right after `osrfx2_probe`: both permits available
(`ATOMIC_INIT(1)`, lines 178-179), no open session. -/
def sysInit : Sys := ⟨⟨1, 1⟩, 0, 0, 0⟩

/-- One arbitration event. Open uses `osrfx2_open`; when it succeeds
the session count of that mode goes up. Close of an open session uses
`osrfx2_release` and decrements the count. -/
def sysStep (s : Sys) : ArbOp → Sys
  | .opn m =>
    match osrfx2_open m s.permits with
    | (.ok, p) =>
      match m with
      | .readOnly => { s with permits := p, nRO := s.nRO + 1 }
      | .writeOnly => { s with permits := p, nWO := s.nWO + 1 }
      | .readWrite => { s with permits := p, nRW := s.nRW + 1 }
    | (.busy, p) => { s with permits := p }
  | .cls m =>
    match m with
    | .readOnly =>
      if s.nRO = 0 then s
      else { s with permits := osrfx2_release .readOnly s.permits, nRO := s.nRO - 1 }
    | .writeOnly =>
      if s.nWO = 0 then s
      else { s with permits := osrfx2_release .writeOnly s.permits, nWO := s.nWO - 1 }
    | .readWrite =>
      if s.nRW = 0 then s
      else { s with permits := osrfx2_release .readWrite s.permits, nRW := s.nRW - 1 }

/-- Run a sequence of arbitration events from the initial state. -/
def runOps (ops : List ArbOp) : Sys :=
  ops.foldl sysStep sysInit

/-- Number of open sessions currently holding the write permit. -/
def writeHolders (s : Sys) : Nat := s.nWO + s.nRW

/-- Number of open sessions currently holding the read permit. -/
def readHolders (s : Sys) : Nat := s.nRO + s.nRW

/-! ## Bulk write path (`osrfx2_write`, lines 504-565)

Allocation and copy outcomes and the `usb_submit_urb` status are
parameters. Pointer dereference is explicit: reading a field through a
possibly-NULL pointer is a `deref` that faults on `none`, so the
unsafe error branch at lines 518-523 (which evaluates
`urb->transfer_dma` when `urb` is NULL) is visible in the model.
-/

/-- A memory fault: dereference of a NULL pointer. -/
inductive Fault
  | nullDeref
deriving DecidableEq

/-- Read through a possibly-NULL pointer: faults on NULL. -/
def deref {α : Type} : Option α → Except Fault α
  | some a => .ok a
  | none => .error .nullDeref

/-- Outcomes of the environment calls made by `osrfx2_write`:
whether `usb_alloc_urb` and `usb_alloc_coherent` return non-NULL,
whether `copy_from_user` succeeds, and the `usb_submit_urb` status. -/
structure WriteEnv where
  urbAllocOk : Bool
  bufAllocOk : Bool
  copyOk : Bool
  submitStatus : Int
deriving DecidableEq

/-- Observable outcome of `osrfx2_write`: the returned value, the
`pending_data` counter afterwards (size_t, mod 2^64), and whether a
bulk-out transfer was submitted. -/
structure WriteOut where
  retval : Int
  pending_data : Nat
  submitted : Bool
deriving DecidableEq

/-- A minimal urb record: the only field the embedded code reads
through the urb pointer before submission is `transfer_dma`. -/
structure Urb where
  transfer_dma : Nat
deriving DecidableEq

/-- Embedding of `osrfx2_write` (lines 504-565). `count` is the byte
count, `pending` the `pending_data` counter on entry. The computation
may fault (NULL dereference); otherwise it yields the outcome.
Branches in source order: zero count returns count (line 513); urb
allocation failure calls `usb_free_coherent(..., urb->transfer_dma)`
with `urb == NULL` before returning `-ENOMEM` (lines 518-523); buffer
allocation failure and copy failure free and return `-ENOMEM` / `-EFAULT`;
submission failure frees and returns the status; on success
`pending_data += count` and `count` is returned. -/
def osrfx2_write (count pending : Nat) (env : WriteEnv) : Except Fault WriteOut := do
  if count = 0 then
    return ⟨0, pending, false⟩
  let urb : Option Urb := if env.urbAllocOk then some ⟨0⟩ else none
  if urb.isNone then
    let _ ← deref urb
    return ⟨-12, pending, false⟩
  if !env.bufAllocOk then
    let _ ← deref urb
    return ⟨-12, pending, false⟩
  if !env.copyOk then
    let _ ← deref urb
    return ⟨-14, pending, false⟩
  if env.submitStatus ≠ 0 then
    let _ ← deref urb
    return ⟨env.submitStatus, pending, false⟩
  return ⟨(count : Int), (pending + count) % size_t_mod, true⟩

/-! ## Bulk read path (`osrfx2_read`, lines 474-501) -/

/-- Outcome of the synchronous `usb_bulk_msg` call: its return status
(0 on success, negative errno otherwise) and the byte count it stored
in `bytes_read`; plus the `copy_to_user` outcome. -/
structure ReadEnv where
  transferStatus : Int
  bytes_read : Nat
  copyOk : Bool
deriving DecidableEq

/-- The bulk-in transfer request issued by `osrfx2_read`: requested
length and timeout in milliseconds. -/
structure BulkCall where
  length : Nat
  timeout : Nat
deriving DecidableEq

/-- Observable outcome of `osrfx2_read`: returned value, `pending_data`
afterwards, and the single bulk transfer it issued. -/
structure ReadOut where
  retval : Int
  pending_data : Nat
  call : BulkCall
deriving DecidableEq

/-- C size_t compound subtraction `p -= r` where `r` is a signed int:
`r` converts to size_t and the subtraction wraps mod 2^64. -/
def size_t_sub (p : Nat) (r : Int) : Nat :=
  (((p : Int) - r) % (size_t_mod : Int)).toNat

/-- Embedding of `osrfx2_read` (lines 474-501): issues one
`usb_bulk_msg` of length `min(fx2dev->bulk_in_size, count)` with a
10000 ms timeout; on transfer success, `copy_to_user` failure turns
`retval` into `-EFAULT`, success into `bytes_read`; in both cases
`pending_data -= retval` is executed (size_t arithmetic). On transfer
failure the status is returned and `pending_data` is untouched. -/
def osrfx2_read (bulk_in_size count pending : Nat) (env : ReadEnv) : ReadOut :=
  let call : BulkCall := ⟨min bulk_in_size count, 10000⟩
  if env.transferStatus = 0 then
    let retval : Int := if env.copyOk then (env.bytes_read : Int) else -14
    ⟨retval, size_t_sub pending retval, call⟩
  else
    ⟨env.transferStatus, pending, call⟩

/-! ## Interrupt listener (`interrupt_handler`, lines 579-598)

The handler body is embedded as the sequence of externally visible
actions it performs, in program order.
-/

/-- Actions the interrupt completion routine can perform, in order:
store the payload byte into `fx2dev->switches`, `wake_up` the event
queue, resubmit the interrupt urb, log an error status. -/
inductive IrqEvent
  | storeSwitches (b : Nat)
  | wakeUp
  | submitUrb
  | logError (status : Int)
deriving DecidableEq

/-- Embedding of `interrupt_handler` (lines 579-598) as its action
trace. On `urb->status == 0`: store the buffer byte into `switches`,
wake the queue, resubmit (logging a resubmission failure), and return.
On non-zero status: log it and return without resubmitting. -/
def interrupt_handler (status : Int) (payload : Nat) (resubmitStatus : Int) :
    List IrqEvent :=
  if status = 0 then
    [.storeSwitches payload, .wakeUp, .submitUrb] ++
      (if resubmitStatus ≠ 0 then [.logError resubmitStatus] else [])
  else
    [.logError status]

/-- The `fx2dev->switches` cache after the handler runs, given its
value before. -/
def interrupt_handler_switches (status : Int) (payload : Nat) (old : Nat) : Nat :=
  if status = 0 then payload else old

/-! ## Theorems -/

set_option maxRecDepth 10000 in
/-- C1: for every value 0-255, the LED set remap of `set_bargraph`
followed by the get format of `get_bargraph` (read as a binary number,
first character most significant) reproduces the value, and likewise
the 7-segment set remap of `set_7segment` followed by the get format of
`get_7segment`; each set table is a bijection on bytes whose inverse is
the corresponding get table. -/
theorem remap_set_get_roundtrip : ∀ v : Fin 256,
    bitsToNat (get_bargraph_format (set_bargraph_remap v.val)).toList = v.val ∧
    bitsToNat (get_7segment_format (set_7segment_remap v.val)).toList = v.val := by
  decide

/-- C2: evaluation of the store path at input "257". The code masks
the parsed value with `& 0xFF` before the `value > 255` range check, so
the check can never fire: input "257" stores physical byte 0x20 (LED) /
0x01 (7-segment), and a subsequent read returns "00000001", not the
"00000000" the clamp-to-0 rule would give. -/
theorem set_range_check_dead_at_257 :
    set_bargraph_value ("257".toList) = 0x20 ∧
    get_bargraph_format (set_bargraph_value ("257".toList)) = "00000001" ∧
    set_7segment_value ("257".toList) = 0x01 ∧
    get_7segment_format (set_7segment_value ("257".toList)) = "00000001" := by
  decide

/-- C3 counterexample: with the device not suspended and the vendor IN
control transfer failing with status -110 (timeout), `get_bargraph`
does not fail: it returns the formatted zeroed cache "00000000"
(the `sprintf` result overwrites the transfer status). -/
theorem get_bargraph_ignores_ctrl_failure :
    (get_bargraph 0x55 false ⟨-110, 0⟩).1 = ShowResult.out "00000000" ∧
    ShowResult.isErr (get_bargraph 0x55 false ⟨-110, 0⟩).1 = false := by
  decide

/-- C3 amended: when the device is not suspended and the control
transfer fails with a negative status, `get_7segment` fails with that
status and does not use the cached byte (the cache has been zeroed);
`get_bargraph`, however, ignores the failure and returns the formatted
zeroed cache "00000000". -/
theorem get_7segment_propagates_ctrl_failure (old : Nat) (ctrl : CtrlIn)
    (h : ctrl.status < 0) :
    get_7segment old false ctrl = (.err ctrl.status, 0, true) ∧
    get_bargraph old false ctrl = (.out "00000000", 0, true) := by
  have h2 : ¬ (0 ≤ ctrl.status) := by omega
  refine ⟨?_, ?_⟩
  · simp [get_7segment, h, h2]
  · simp [get_bargraph, h2]
    decide

/-- Witness for C3: concrete instance with status -110. -/
theorem get_7segment_propagates_ctrl_failure_witness :
    get_7segment 0x12 false ⟨-110, 7⟩ = (.err (-110), 0, true) ∧
    get_bargraph 0x12 false ⟨-110, 7⟩ = (.out "00000000", 0, true) :=
  get_7segment_propagates_ctrl_failure 0x12 ⟨-110, 7⟩ (by decide)

/-- C8: while `suspended` is set, `get_bargraph` and `get_7segment`
return the sentinel "S ", issue no control transfer and leave the
cached byte untouched; after `osrfx2_resume` clears `suspended`, both
reads issue the control transfer again. -/
theorem suspended_reads_sentinel (old : Nat) (ctrl : CtrlIn) (pm : PmState) :
    get_bargraph old true ctrl = (.out "S ", old, false) ∧
    get_7segment old true ctrl = (.out "S ", old, false) ∧
    (get_bargraph old (osrfx2_resume pm).suspended ctrl).2.2 = true ∧
    (get_7segment old (osrfx2_resume pm).suspended ctrl).2.2 = true := by
  refine ⟨rfl, rfl, ?_, ?_⟩
  · simp [get_bargraph, osrfx2_resume]
  · simp only [get_7segment, osrfx2_resume, Bool.false_eq_true, if_false]
    split <;> rfl

/-- C7: on a successful delivery (status 0) the interrupt handler
first stores the payload into the switches cache, only then wakes
blocked observers, and then re-arms the listener (the first three
actions, in order); on a non-zero status it never resubmits, leaving
the listener dormant. -/
theorem interrupt_notify_after_update (status : Int) (payload old : Nat) (rs : Int) :
    (status = 0 →
      (interrupt_handler status payload rs).take 3 =
        [.storeSwitches payload, .wakeUp, .submitUrb] ∧
      interrupt_handler_switches status payload old = payload) ∧
    (status ≠ 0 → IrqEvent.submitUrb ∉ interrupt_handler status payload rs) := by
  constructor
  · intro h
    subst h
    refine ⟨?_, rfl⟩
    by_cases hrs : rs ≠ 0 <;> simp [interrupt_handler, hrs]
  · intro h
    simp [interrupt_handler, h]

/-- Witness for C7: concrete successful delivery and concrete failed
delivery (status -71, protocol error). -/
theorem interrupt_notify_after_update_witness :
    ((interrupt_handler 0 0xAB 0).take 3 =
        [.storeSwitches 0xAB, .wakeUp, .submitUrb] ∧
      interrupt_handler_switches 0 0xAB 0x11 = 0xAB) ∧
    IrqEvent.submitUrb ∉ interrupt_handler (-71) 0 0 :=
  ⟨(interrupt_notify_after_update 0 0xAB 0x11 0).1 rfl,
   (interrupt_notify_after_update (-71) 0 0x11 0).2 (by decide)⟩

/-- C5: `osrfx2_write` with zero-length input returns 0 immediately,
submits nothing and leaves `pending_data` unchanged; with non-empty
input, when all allocations, the user copy and the urb submission
succeed, `pending_data` grows by exactly `count` and `count` is
returned at once. -/
theorem write_zero_and_success (count pending : Nat) (env env0 : WriteEnv)
    (hc : count ≠ 0) (hu : env.urbAllocOk = true) (hb : env.bufAllocOk = true)
    (hcp : env.copyOk = true) (hs : env.submitStatus = 0)
    (hov : pending + count < size_t_mod) :
    osrfx2_write 0 pending env0 = .ok ⟨0, pending, false⟩ ∧
    osrfx2_write count pending env = .ok ⟨(count : Int), pending + count, true⟩ := by
  constructor
  · rfl
  · simp [osrfx2_write, hc, hu, hb, hcp, hs, deref, Nat.mod_eq_of_lt hov,
      pure, Except.pure, bind, Except.bind]

/-- Witness for C5: a 3-byte write onto a pending count of 5. -/
theorem write_zero_and_success_witness :
    osrfx2_write 0 5 ⟨true, true, true, 0⟩ = .ok ⟨0, 5, false⟩ ∧
    osrfx2_write 3 5 ⟨true, true, true, 0⟩ = .ok ⟨3, 8, true⟩ :=
  write_zero_and_success 3 5 ⟨true, true, true, 0⟩ ⟨true, true, true, 0⟩
    (by decide) rfl rfl rfl rfl (by norm_num [size_t_mod])

/-- C6: `osrfx2_read` issues a single bulk-in transfer of requested
length `min(bulk_in_size, count)` with a fixed 10000 ms timeout, and
when the transfer and the copy to the caller both succeed it returns
the number of bytes read and decreases `pending_data` by exactly that
number. -/
theorem read_success_decreases_pending (bulk_in_size count pending : Nat)
    (env : ReadEnv) (ht : env.transferStatus = 0) (hcp : env.copyOk = true)
    (hle : env.bytes_read ≤ pending) (hp : pending < size_t_mod) :
    osrfx2_read bulk_in_size count pending env =
      ⟨(env.bytes_read : Int), pending - env.bytes_read,
        ⟨min bulk_in_size count, 10000⟩⟩ := by
  have hm : size_t_mod = 18446744073709551616 := by norm_num [size_t_mod]
  rw [hm] at hp
  have hv : size_t_sub pending (env.bytes_read : Int) = pending - env.bytes_read := by
    simp only [size_t_sub, hm]
    omega
  simp [osrfx2_read, ht, hcp, hv]

/-- Witness for C6: endpoint buffer of 64 bytes, request of 512 bytes,
10 bytes arriving against a pending count of 25. -/
theorem read_success_decreases_pending_witness :
    osrfx2_read 64 512 25 ⟨0, 10, true⟩ = ⟨10, 15, ⟨64, 10000⟩⟩ :=
  read_success_decreases_pending 64 512 25 ⟨0, 10, true⟩ rfl rfl
    (by norm_num) (by norm_num [size_t_mod])

/-- C9: in `osrfx2_write`, the error branch taken when urb allocation
fails evaluates `urb->transfer_dma` through the NULL urb pointer inside
its `usb_free_coherent` call before it can return `-ENOMEM`: the
embedded computation faults with a NULL dereference. -/
theorem write_urb_alloc_failure_null_deref (count pending : Nat) (env : WriteEnv)
    (hc : count ≠ 0) (hu : env.urbAllocOk = false) :
    osrfx2_write count pending env = .error .nullDeref := by
  simp [osrfx2_write, hc, hu, deref, bind, Except.bind, pure, Except.pure]

/-- Witness for C9: a 1-byte write when `usb_alloc_urb` returns NULL. -/
theorem write_urb_alloc_failure_null_deref_witness :
    osrfx2_write 1 0 ⟨false, true, true, 0⟩ = .error .nullDeref :=
  write_urb_alloc_failure_null_deref 1 0 ⟨false, true, true, 0⟩ (by decide) rfl

/-- C10: when the bulk-in transfer succeeds but the copy to the caller
fails, `osrfx2_read` returns `-EFAULT` (-14) yet still executes
`pending_data -= retval` with `retval = -14`, so `pending_data`
increases by 14 (size_t arithmetic, mod 2^64). -/
theorem read_fault_still_mutates_pending (bulk_in_size count pending : Nat)
    (env : ReadEnv) (ht : env.transferStatus = 0) (hcp : env.copyOk = false) :
    osrfx2_read bulk_in_size count pending env =
      ⟨-14, (pending + 14) % size_t_mod, ⟨min bulk_in_size count, 10000⟩⟩ := by
  have hm : size_t_mod = 18446744073709551616 := by norm_num [size_t_mod]
  have hv : size_t_sub pending (-14) = (pending + 14) % size_t_mod := by
    simp only [size_t_sub, hm]
    omega
  simp [osrfx2_read, ht, hcp, hv]

/-- Witness for C10: pending count 25 becomes 39 while the caller gets
error -14. -/
theorem read_fault_still_mutates_pending_witness :
    osrfx2_read 64 512 25 ⟨0, 10, false⟩ = ⟨-14, 39, ⟨64, 10000⟩⟩ := by
  rw [read_fault_still_mutates_pending 64 512 25 ⟨0, 10, false⟩ rfl rfl]
  norm_num [size_t_mod]

/-! ### Arbiter invariant for C4 -/

/-- Invariant tying the atomic permit counters to the number of open
sessions holding each permit. -/
def sysInv (s : Sys) : Prop :=
  s.permits.bulk_write_available = 1 - (writeHolders s : Int) ∧
  s.permits.bulk_read_available = 1 - (readHolders s : Int) ∧
  writeHolders s ≤ 1 ∧ readHolders s ≤ 1

/-- The initial state satisfies the invariant. -/
theorem sysInv_init : sysInv sysInit := by
  simp [sysInv, sysInit, writeHolders, readHolders]

/-- Every arbitration event preserves the invariant. -/
theorem sysInv_step (s : Sys) (o : ArbOp) (h : sysInv s) : sysInv (sysStep s o) := by
  obtain ⟨hw, hr, hw1, hr1⟩ := h
  obtain ⟨⟨w, r⟩, nRO, nWO, nRW⟩ := s
  simp only [sysInv, writeHolders, readHolders] at hw hr hw1 hr1 ⊢
  cases o with
  | opn m =>
    cases m <;>
      simp only [sysStep, osrfx2_open, wantsWrite, wantsRead] <;>
      split_ifs <;>
      simp_all [sysInv, writeHolders, readHolders] <;>
      omega
  | cls m =>
    cases m <;>
      simp only [sysStep, osrfx2_release, wantsWrite, wantsRead] <;>
      split_ifs <;>
      simp_all [sysInv, writeHolders, readHolders] <;>
      omega

/-- The invariant holds after any sequence of arbitration events. -/
theorem sysInv_runOps (ops : List ArbOp) : sysInv (runOps ops) := by
  suffices h : ∀ s, sysInv s → sysInv (ops.foldl sysStep s) from h sysInit sysInv_init
  induction ops with
  | nil => exact fun s h => h
  | cons o rest ih => exact fun s h => ih (sysStep s o) (sysInv_step s o h)

/-- An open attempt that comes back busy restores both permit counters
exactly to their prior values. -/
theorem open_busy_unchanged (m : Mode) (p : Permits)
    (h : (osrfx2_open m p).1 = .busy) : (osrfx2_open m p).2 = p := by
  obtain ⟨w, r⟩ := p
  cases m <;>
    (simp only [osrfx2_open, wantsWrite, wantsRead] at h ⊢;
     split_ifs at h ⊢ <;> simp_all [Permits.mk.injEq] <;> omega)

/-- C4: at most one open session holds the write permit and at most
one holds the read permit after any event sequence; an open while the
write permit is held (counter 0) returns busy with the state unchanged,
for both `O_WRONLY` and `O_RDWR`; any busy open leaves the permits
exactly as they were (in particular an `O_RDWR` open that fails on the
read permit has released the write permit it took); after the holder
releases, a subsequent `O_WRONLY` open succeeds; and an `O_RDWR` open
that finds the write permit free but the read permit held fails busy
without touching the read permit. -/
theorem arbiter_mutual_exclusion :
    (∀ ops : List ArbOp, writeHolders (runOps ops) ≤ 1 ∧ readHolders (runOps ops) ≤ 1) ∧
    (∀ p : Permits, p.bulk_write_available = 0 →
      osrfx2_open .writeOnly p = (.busy, p) ∧ osrfx2_open .readWrite p = (.busy, p)) ∧
    (∀ m : Mode, ∀ p : Permits, (osrfx2_open m p).1 = .busy → (osrfx2_open m p).2 = p) ∧
    (∀ p : Permits, p.bulk_write_available = 0 →
      (osrfx2_open .writeOnly (osrfx2_release .writeOnly p)).1 = .ok) ∧
    (∀ p : Permits, p.bulk_write_available = 1 → p.bulk_read_available = 0 →
      osrfx2_open .readWrite p = (.busy, p)) := by
  refine ⟨?_, ?_, open_busy_unchanged, ?_, ?_⟩
  · intro ops
    exact ⟨(sysInv_runOps ops).2.2.1, (sysInv_runOps ops).2.2.2⟩
  · intro p hp
    obtain ⟨w, r⟩ := p
    simp only at hp
    subst hp
    constructor <;> simp [osrfx2_open, wantsWrite, wantsRead]
  · intro p hp
    obtain ⟨w, r⟩ := p
    simp only at hp
    subst hp
    simp [osrfx2_open, osrfx2_release, wantsWrite, wantsRead]
  · intro p hpw hpr
    obtain ⟨w, r⟩ := p
    simp only at hpw hpr
    subst hpw
    subst hpr
    simp [osrfx2_open, wantsWrite, wantsRead]

/-- Witness for C4: two successive write-only open attempts leave at
most one holder; concrete busy and success cases on concrete permit
states. -/
theorem arbiter_mutual_exclusion_witness :
    (writeHolders (runOps [.opn .writeOnly, .opn .writeOnly]) ≤ 1 ∧
      readHolders (runOps [.opn .writeOnly, .opn .writeOnly]) ≤ 1) ∧
    (osrfx2_open .writeOnly ⟨0, 1⟩ = (.busy, ⟨0, 1⟩) ∧
      osrfx2_open .readWrite ⟨0, 1⟩ = (.busy, ⟨0, 1⟩)) ∧
    (osrfx2_open .readWrite ⟨1, 0⟩).2 = ⟨1, 0⟩ ∧
    (osrfx2_open .writeOnly (osrfx2_release .writeOnly ⟨0, 1⟩)).1 = .ok ∧
    osrfx2_open .readWrite ⟨1, 0⟩ = (.busy, ⟨1, 0⟩) :=
  ⟨arbiter_mutual_exclusion.1 [.opn .writeOnly, .opn .writeOnly],
   arbiter_mutual_exclusion.2.1 ⟨0, 1⟩ rfl,
   arbiter_mutual_exclusion.2.2.1 .readWrite ⟨1, 0⟩ (by decide),
   arbiter_mutual_exclusion.2.2.2.1 ⟨0, 1⟩ rfl,
   arbiter_mutual_exclusion.2.2.2.2 ⟨1, 0⟩ rfl rfl⟩

end OsrFx2
